import Mathlib

/-!
Verification development for the connection-lifecycle core of a
peer-to-peer VPN node (Go sources under `src/`).

The development shallowly embeds the relevant Go functions:

* `SessionMgr` — the provider session manager (`src/session/manager.go`):
  `Create`, `createSession`, `Destroy`, `notifyNATPinger`.  The session
  storage (an injected `Storage` interface backed by an in-memory map of
  sessions keyed by id) is modelled as a list with map insert/remove
  semantics; the injected `IDGenerator` is modelled as a function from a
  call counter to an optional id, so that id generation is deterministic
  and executable.  External collaborators (promise processor, NAT pinger
  channel, shutdown channel, destroy callback) are recorded as effects in
  an explicit trace, in the order the Go code invokes them.

* `ConnMgr` — the consumer connection manager
  (`src/core/connection/manager.go`): `Connect`, `startConnection`,
  `waitForConnectedState`, `Disconnect`.  Each fallible external call is
  driven by a boolean of an environment record; the tunnel state channel
  and the connect context are modelled as a list of channel events that
  resolves the `select` nondeterminism; the compensation list `cancel`
  is modelled exactly as the Go code builds it (appended in registration
  order, executed by the stored clean-up thunk in reverse index order).

* `ServiceMgr` — the provider service manager (`src/unnamed/part_005`,
  package `service`): `Manager.Start`, with each step's side effect
  recorded in a trace.

* `Interleave` — a two-thread small-step system for the provider-side
  race between `Manager.Create` (session thread) and the openvpn
  `Manager.Serve` loop (`src/services/openvpn/service/manager.go`):
  the hand-off of `requestConfig` to the NAT pinger is a rendezvous on
  an unbuffered channel (modelled from the spec: the channel returned by
  `natPingerChan()` is constructed outside the given sources; the spec's
  design notes fix it as an unbuffered rendezvous).
-/

namespace SessionMgr

/-- Errors of `src/session/manager.go` plus tags for errors propagated
from injected collaborators (id generator, promise processor, destroy
callback). -/
inductive SErr where
  | invalidProposal
  | sessionNotExists
  | wrongSessionOwner
  | generatorFailure
  | promiseStartFailure
  | promiseStopFailure
  | destroyCbFailure
  deriving DecidableEq, Repr

/-- The `Session` struct: id, consumer identity, service configuration,
optional destroy callback (the `Bool` is whether the callback succeeds
when invoked), and the `Last` flag.  Identities and configurations are
opaque and modelled as naturals. -/
structure GoSession where
  id : Nat
  consumerID : Nat
  config : Nat
  destroyCb : Option Bool
  last : Bool
  deriving DecidableEq, Repr

/-- Observable effects of the session manager on its collaborators, in
invocation order. -/
inductive SEff where
  | promiseStart
  | promiseStop
  | natNotify (cfg : Nat)
  | storeAdd (id : Nat)
  | storeRemove (id : Nat)
  | shutdownSignal
  | destroyCbCall (id : Nat)
  deriving DecidableEq, Repr

/-- State of `session.Manager` together with its injected collaborators:
the current proposal id, the id generator (indexed by how many times it
has been called), the session storage, and whether the promise
processor's `Start`/`Stop` calls succeed. -/
structure Manager where
  currentProposalID : Nat
  generateID : Nat → Option Nat
  genCalls : Nat
  store : List GoSession
  promiseStartOk : Bool
  promiseStopOk : Bool

/-- `Storage.Find`: lookup by session id. -/
def findSession (store : List GoSession) (id : Nat) : Option GoSession :=
  store.find? (fun s => s.id = id)

/-- `Storage.Add` with map-insert semantics (an existing entry with the
same id is replaced). -/
def addSession (store : List GoSession) (s : GoSession) : List GoSession :=
  store.filter (fun t => t.id ≠ s.id) ++ [s]

/-- `Storage.Remove`: delete by id (idempotent). -/
def removeSession (store : List GoSession) (id : Nat) : List GoSession :=
  store.filter (fun t => t.id ≠ id)

/-- `Manager.createSession`: calls the injected id generator once and, on
success, builds a `Session` with the consumer identity and config; the
destroy callback is attached later by `Create`.  No check against the
store is performed. -/
def createSession (m : Manager) (consumerID config : Nat) :
    Option GoSession × Manager :=
  match m.generateID m.genCalls with
  | none => (none, { m with genCalls := m.genCalls + 1 })
  | some i =>
      (some { id := i, consumerID := consumerID, config := config,
              destroyCb := none, last := false },
       { m with genCalls := m.genCalls + 1 })

/-- `Manager.Create`: under the creation lock, validate the proposal id,
generate the session, start the promise processor, notify the NAT
pinger with `requestConfig`, attach the destroy callback, add to the
store and return the session.  Returns the result, the new manager
state, and the trace of collaborator effects. -/
def create (m : Manager) (consumerID proposalID config : Nat)
    (destroyCb : Option Bool) (requestConfig : Nat) :
    Except SErr GoSession × Manager × List SEff :=
  if m.currentProposalID ≠ proposalID then
    (Except.error SErr.invalidProposal, m, [])
  else
    match createSession m consumerID config with
    | (none, m1) => (Except.error SErr.generatorFailure, m1, [])
    | (some s, m1) =>
        if m1.promiseStartOk then
          let s2 := { s with destroyCb := destroyCb }
          (Except.ok s2,
           { m1 with store := addSession m1.store s2 },
           [SEff.promiseStart, SEff.natNotify requestConfig,
            SEff.storeAdd s2.id])
        else
          (Except.error SErr.promiseStartFailure, m1, [SEff.promiseStart])

/-- `Manager.Destroy`: under the creation lock, find the session
(`SessionNotFound` if absent), check ownership (`WrongOwner` on
mismatch), signal the last-session shutdown channel if `session.Last`,
stop the promise processor (propagating its error), remove the session
from the store, and finally invoke the destroy callback if present. -/
def destroy (m : Manager) (consumerID sessionID : Nat) :
    Option SErr × Manager × List SEff :=
  match findSession m.store sessionID with
  | none => (some SErr.sessionNotExists, m, [])
  | some s =>
      if s.consumerID ≠ consumerID then
        (some SErr.wrongSessionOwner, m, [])
      else
        let pre := if s.last then [SEff.shutdownSignal] else []
        if m.promiseStopOk then
          let m1 := { m with store := removeSession m.store sessionID }
          match s.destroyCb with
          | none =>
              (none, m1, pre ++ [SEff.promiseStop, SEff.storeRemove sessionID])
          | some ok =>
              (if ok then none else some SErr.destroyCbFailure, m1,
               pre ++ [SEff.promiseStop, SEff.storeRemove sessionID,
                       SEff.destroyCbCall sessionID])
        else
          (some SErr.promiseStopFailure, m, pre ++ [SEff.promiseStop])

/-- A sample manager for concrete evaluations: proposal 42, injective id
generator, empty store. -/
def mgrA : Manager :=
  { currentProposalID := 42, generateID := fun n => some (100 + n),
    genCalls := 0, store := [], promiseStartOk := true, promiseStopOk := true }

/-- A sample session: id 7, consumer 1, marked last, with a destroy
callback that succeeds. -/
def sessB : GoSession :=
  { id := 7, consumerID := 1, config := 3, destroyCb := some true, last := true }

/-- A sample manager whose store holds `sessB`. -/
def mgrB : Manager :=
  { currentProposalID := 42, generateID := fun n => some (100 + n),
    genCalls := 1, store := [sessB], promiseStartOk := true, promiseStopOk := true }

/-- A manager whose injected id generator always returns the same id,
to exhibit that `Create` performs no uniqueness check against the
store. -/
def mgrConst : Manager :=
  { currentProposalID := 42, generateID := fun _ => some 7,
    genCalls := 0, store := [], promiseStartOk := true, promiseStopOk := true }

/-- The manager state after a first successful `Create` on `mgrConst`. -/
def mgrConst1 : Manager := (create mgrConst 1 42 0 none 0).2.1

end SessionMgr

namespace ConnMgr

/-- Tunnel states reported on the state channel
(`src/core/connection/manager.go`: type `State`).  States other than
`connected`/`reconnecting` are collapsed into `other` since
`onStateChanged` treats them uniformly. -/
inductive TunState where
  | connected
  | reconnecting
  | other (n : Nat)
  deriving DecidableEq, Repr

/-- Connection manager status values (`statusNotConnected`,
`statusConnecting`, `statusConnected`, `statusDisconnecting`,
`statusReconnecting`); `connected` carries the session id. -/
inductive MStatus where
  | notConnected
  | connecting
  | connected (sessionID : Nat)
  | disconnecting
  | reconnecting
  deriving DecidableEq, Repr

/-- Errors of the connection manager: the named errors of the Go file
plus tags for errors propagated from injected collaborators and
`context.Canceled`. -/
inductive GoErr where
  | noConnection
  | alreadyExists
  | connectionCancelled
  | connectionFailed
  | unsupportedServiceType
  | ctxCanceled
  | dialogFailure
  | getConfigFailure
  | sessionCreateFailure
  | paymentFactoryFailure
  | startFailure
  deriving DecidableEq, Repr

/-- One resolution of the `select` in `waitForConnectedState`: a state
received from the channel, the channel found closed, or the connect
context found cancelled. -/
inductive ChanEvent where
  | recv (s : TunState)
  | closed
  | ctxDone
  deriving DecidableEq, Repr

/-- The compensations appended to the `cancel` slice by
`startConnection`, in their registration order. -/
inductive Undo where
  | closeDialog
  | requestSessionDestroy
  | paymentsStop
  | publishSessionEnded
  | connectionStop
  deriving DecidableEq, Repr

/-- Observable effects of the connection manager, in invocation order. -/
inductive Eff where
  | openDialog
  | newConnection
  | getConfig
  | requestSessionCreate
  | newPaymentIssuer
  | spawnPaymentLoop
  | publishSessionCreated
  | connectionStart
  | spawnStatsConsumer
  | publishStateEvent (s : TunState)
  | enableKillSwitch
  | spawnStateConsumer
  | spawnWaiter
  | cancelCtx
  | closeDialogDone
  | requestSessionDestroyDone
  | paymentsStopDone
  | publishSessionEnded
  | connectionStopDone
  deriving DecidableEq, Repr

/-- Executing one registered compensation produces one effect (the body
of the corresponding closure appended to `cancel`). -/
def runUndo : Undo → Eff
  | Undo.closeDialog => Eff.closeDialogDone
  | Undo.requestSessionDestroy => Eff.requestSessionDestroyDone
  | Undo.paymentsStop => Eff.paymentsStopDone
  | Undo.publishSessionEnded => Eff.publishSessionEnded
  | Undo.connectionStop => Eff.connectionStopDone

/-- The full `cancel` slice when every step of `startConnection` has
completed, in registration order: close dialog, request session
destroy, stop payments, publish the session-ended event, stop the
connection. -/
def canonicalUndos : List Undo :=
  [Undo.closeDialog, Undo.requestSessionDestroy, Undo.paymentsStop,
   Undo.publishSessionEnded, Undo.connectionStop]

/-- Environment of one `Connect` call: the proposal's contact list, the
success of each fallible external call, the session id the provider
returns, the resolutions of the state-channel `select`, and the
kill-switch parameter. -/
structure Env where
  providerContacts : List Nat
  dialogOk : Bool
  serviceTypeSupported : Bool
  getConfigOk : Bool
  sessionCreateOk : Bool
  sessionID : Nat
  paymentFactoryOk : Bool
  connectionStartOk : Bool
  waitEvents : List ChanEvent
  disableKillSwitch : Bool
  deriving DecidableEq, Repr

/-- How a call of `Connect`/`startConnection` ends: normal return with
`nil` error, return with an error, a Go runtime panic, or no return at
all (blocked forever on the state channel). -/
inductive Outcome where
  | ok
  | err (e : GoErr)
  | panicked
  | blocked
  deriving DecidableEq, Repr

/-- `waitForConnectedState`: loop over the channel events; a closed
channel yields `ErrConnectionFailed`, a cancelled context yields
`ctx.Err()` (`context.Canceled`), a received `Connected` state ends the
loop with `nil` after `onStateChanged` published the state event and
set the status; other received states are passed to `onStateChanged`
and the loop continues.  `none` models blocking forever (no further
event).  Returns the error, the published effects, and the status
updates performed by `onStateChanged`, in order. -/
def waitForConnectedState (sessionID : Nat) :
    List ChanEvent → Option (Option GoErr × List Eff × List MStatus)
  | [] => none
  | ChanEvent.closed :: _ => some (some GoErr.connectionFailed, [], [])
  | ChanEvent.ctxDone :: _ => some (some GoErr.ctxCanceled, [], [])
  | ChanEvent.recv s :: rest =>
      match s with
      | TunState.connected =>
          some (none, [Eff.publishStateEvent TunState.connected],
                [MStatus.connected sessionID])
      | TunState.reconnecting =>
          match waitForConnectedState sessionID rest with
          | none => none
          | some (e, effs, us) =>
              some (e, Eff.publishStateEvent TunState.reconnecting :: effs,
                    MStatus.reconnecting :: us)
      | TunState.other n =>
          match waitForConnectedState sessionID rest with
          | none => none
          | some (e, effs, us) =>
              some (e, Eff.publishStateEvent (TunState.other n) :: effs, us)

/-- Result of `startConnection`: the outcome, the `cancel` slice in
registration order, the trace of effects performed, and the status
updates performed by `onStateChanged` during the wait loop. -/
structure SCRes where
  out : Outcome
  undos : List Undo
  effs : List Eff
  statusUpdates : List MStatus
  deriving DecidableEq, Repr

/-- `startConnection`: the ordered steps of the connect attempt.  Each
step either fails (returning the error with the compensations
registered so far) or performs its effect and possibly appends its
compensation.  Accessing `proposal.ProviderContacts[0]` on an empty
contact list is a Go index-out-of-range panic. -/
def startConnection (env : Env) : SCRes :=
  match env.providerContacts.head? with
  | none => ⟨Outcome.panicked, [], [], []⟩
  | some _ =>
    if env.dialogOk then
      let u1 := [Undo.closeDialog]
      let t1 := [Eff.openDialog]
      if env.serviceTypeSupported then
        let t2 := t1 ++ [Eff.newConnection]
        if env.getConfigOk then
          let t3 := t2 ++ [Eff.getConfig]
          if env.sessionCreateOk then
            let u2 := u1 ++ [Undo.requestSessionDestroy]
            let t4 := t3 ++ [Eff.requestSessionCreate]
            if env.paymentFactoryOk then
              let u3 := u2 ++ [Undo.paymentsStop]
              let t5 := t4 ++ [Eff.newPaymentIssuer, Eff.spawnPaymentLoop,
                               Eff.publishSessionCreated]
              let u4 := u3 ++ [Undo.publishSessionEnded]
              if env.connectionStartOk then
                let u5 := u4 ++ [Undo.connectionStop]
                let t6 := t5 ++ [Eff.connectionStart, Eff.spawnStatsConsumer]
                match waitForConnectedState env.sessionID env.waitEvents with
                | none => ⟨Outcome.blocked, u5, t6, []⟩
                | some (some e, effs, us) => ⟨Outcome.err e, u5, t6 ++ effs, us⟩
                | some (none, effs, us) =>
                    let t7 := t6 ++ effs ++
                      (if env.disableKillSwitch then [] else [Eff.enableKillSwitch])
                    ⟨Outcome.ok, u5, t7 ++ [Eff.spawnStateConsumer, Eff.spawnWaiter], us⟩
              else ⟨Outcome.err GoErr.startFailure, u4, t5, []⟩
            else ⟨Outcome.err GoErr.paymentFactoryFailure, u2, t4, []⟩
          else ⟨Outcome.err GoErr.sessionCreateFailure, u1, t3, []⟩
        else ⟨Outcome.err GoErr.getConfigFailure, u1, t2, []⟩
      else ⟨Outcome.err GoErr.unsupportedServiceType, u1, t1, []⟩
    else ⟨Outcome.err GoErr.dialogFailure, [], [], []⟩

/-- State of the connection manager visible across calls: the current
status and the compensation list held by the stored `cleanConnection`
thunk. -/
structure Mgr where
  status : MStatus
  undos : List Undo
  deriving DecidableEq, Repr

/-- Applying the status updates of `onStateChanged` in order; the
manager's status after the loop is the last update (or the initial
status when no update occurred). -/
def applyUpdates (st : MStatus) : List MStatus → MStatus
  | [] => st
  | u :: us => applyUpdates u us

/-- Result of a `Connect` call: the outcome, the manager state after
the call, and the trace of effects (main steps followed by cleanup
effects when the attempt failed). -/
structure CRes where
  out : Outcome
  mgr : Mgr
  effs : List Eff
  deriving DecidableEq, Repr

/-- `Connect`: fail with `ErrAlreadyExists` unless the status is
`NotConnected`; otherwise set status `Connecting` and run
`startConnection`.  On step failure the deferred handler invokes
`Disconnect`, which cancels the context and runs the registered
compensations in reverse registration order, after which both deferred
handlers leave the status `NotConnected`; `context.Canceled` is mapped
to `ErrConnectionCancelled`.  On a panic the deferred handlers observe
a `nil` error and run no compensation. -/
def connect (mgr : Mgr) (env : Env) : CRes :=
  if mgr.status ≠ MStatus.notConnected then
    ⟨Outcome.err GoErr.alreadyExists, mgr, []⟩
  else
    let r := startConnection env
    match r.out with
    | Outcome.ok =>
        ⟨Outcome.ok, ⟨applyUpdates MStatus.connecting r.statusUpdates, r.undos⟩,
         r.effs⟩
    | Outcome.err e =>
        ⟨Outcome.err (if e = GoErr.ctxCanceled then GoErr.connectionCancelled else e),
         ⟨MStatus.notConnected, r.undos⟩,
         r.effs ++ [Eff.cancelCtx] ++ (r.undos.reverse.map runUndo)⟩
    | Outcome.panicked => ⟨Outcome.panicked, ⟨MStatus.connecting, r.undos⟩, r.effs⟩
    | Outcome.blocked => ⟨Outcome.blocked, ⟨MStatus.connecting, r.undos⟩, r.effs⟩

/-- `Disconnect`: under the disconnect lock, fail with
`ErrNoConnection` when the status is `NotConnected`; otherwise set
status `Disconnecting`, invoke the stored `cleanConnection` thunk
(cancel the context, then run the compensations in reverse), and set
status `NotConnected`. -/
def disconnect (mgr : Mgr) : Option GoErr × Mgr × List Eff :=
  if mgr.status = MStatus.notConnected then
    (some GoErr.noConnection, mgr, [])
  else
    (none, ⟨MStatus.notConnected, mgr.undos⟩,
     Eff.cancelCtx :: (mgr.undos.reverse.map runUndo))

/-- A sample environment whose `RequestSessionCreate` exchange fails,
for concrete evaluation of the compensation path. -/
def envFail : Env :=
  { providerContacts := [0], dialogOk := true, serviceTypeSupported := true,
    getConfigOk := true, sessionCreateOk := false, sessionID := 9,
    paymentFactoryOk := true, connectionStartOk := true, waitEvents := [],
    disableKillSwitch := true }

/-- A sample environment where every step succeeds and the tunnel
reports an intermediate state followed by `Connected`. -/
def envOk : Env :=
  { providerContacts := [0], dialogOk := true, serviceTypeSupported := true,
    getConfigOk := true, sessionCreateOk := true, sessionID := 9,
    paymentFactoryOk := true, connectionStartOk := true,
    waitEvents := [ChanEvent.recv (TunState.other 0),
                   ChanEvent.recv TunState.connected],
    disableKillSwitch := false }

/-- A sample environment whose proposal carries no provider contact. -/
def envNoContacts : Env :=
  { providerContacts := [], dialogOk := true, serviceTypeSupported := true,
    getConfigOk := true, sessionCreateOk := true, sessionID := 9,
    paymentFactoryOk := true, connectionStartOk := true,
    waitEvents := [ChanEvent.recv TunState.connected],
    disableKillSwitch := true }

end ConnMgr

namespace ServiceMgr

/-- Errors of the provider service manager's `Start` (package
`service`, `src/unnamed/part_005`): tags for the failure of each
fallible step. -/
inductive FErr where
  | registryFailure
  | waiterFactoryFailure
  | waiterStartFailure
  | serveDialogsFailure
  | idGenFailure
  deriving DecidableEq, Repr

/-- Observable effects of `Manager.Start` on its collaborators, in
invocation order.  `dialogWaiterStop` and `handlerRelease` are the
would-be rollback effects; `Start` itself contains no call that would
produce them. -/
inductive FEff where
  | registryCreate
  | newDialogWaiter
  | dialogWaiterStart
  | setProviderContact
  | newDialogHandler
  | serveDialogsBind
  | discoveryStart
  | generateInstanceID
  | poolAdd
  | spawnServe
  | dialogWaiterStop
  | handlerRelease
  deriving DecidableEq, Repr

/-- Environment of one `Manager.Start` call: success of each fallible
collaborator call. -/
structure FEnv where
  registryOk : Bool
  waiterFactoryOk : Bool
  waiterStartOk : Bool
  serveDialogsOk : Bool
  idGenOk : Bool
  deriving DecidableEq, Repr

/-- `Manager.Start`: resolve the service type in the registry, build
and start the dialog waiter, attach the returned contact to the
proposal, build the dialog handler, bind it with `ServeDialogs`, start
discovery, generate the instance id, add the instance to the pool and
spawn the serve supervisor.  Every failing step returns its error
immediately, with no rollback of the earlier steps. -/
def managerStart (env : FEnv) : Option FErr × List FEff :=
  if env.registryOk then
    let t1 := [FEff.registryCreate]
    if env.waiterFactoryOk then
      let t2 := t1 ++ [FEff.newDialogWaiter]
      if env.waiterStartOk then
        let t3 := t2 ++ [FEff.dialogWaiterStart, FEff.setProviderContact,
                         FEff.newDialogHandler]
        if env.serveDialogsOk then
          let t4 := t3 ++ [FEff.serveDialogsBind, FEff.discoveryStart]
          if env.idGenOk then
            (none, t4 ++ [FEff.generateInstanceID, FEff.poolAdd, FEff.spawnServe])
          else (some FErr.idGenFailure, t4 ++ [FEff.generateInstanceID])
        else (some FErr.serveDialogsFailure, t3 ++ [FEff.serveDialogsBind])
      else (some FErr.waiterStartFailure, t2 ++ [FEff.dialogWaiterStart])
    else (some FErr.waiterFactoryFailure, t1 ++ [FEff.newDialogWaiter])
  else (some FErr.registryFailure, [FEff.registryCreate])

end ServiceMgr

namespace Interleave

/-- Atomic actions of the two provider-side threads: the session
manager's `Create` (running inside the dialog handler) and the openvpn
service's `Serve` loop.  `rendezvous` is the hand-off of
`requestConfig` over the unbuffered NAT-pinger channel: the send inside
`notifyNATPinger` and the receive inside `natPinger.WaitForHole`
synchronise. -/
inductive Act where
  | checkProposal
  | genId
  | promiseStart
  | rendezvous
  | storeAdd
  | natAddRule
  | natStart
  | primitives
  | bindProducer
  | vpnStart
  | vpnWait
  deriving DecidableEq, Repr

/-- The `Create` thread (`src/session/manager.go`, `Manager.Create` on
the success path): validate the proposal, generate the id, start the
promise processor, send `requestConfig` to the NAT pinger, add the
session to the store. -/
def createProg : List Act :=
  [Act.checkProposal, Act.genId, Act.promiseStart, Act.rendezvous, Act.storeAdd]

/-- The `Serve` thread (`src/services/openvpn/service/manager.go`,
`Manager.Serve`, first loop iteration): NAT rule and service start,
primitive generation, `BindProducer`, then `WaitForHole` (the
rendezvous receive) followed by `vpnServer.Start()` and
`vpnServer.Wait()`. -/
def serveProg : List Act :=
  [Act.natAddRule, Act.natStart, Act.primitives, Act.bindProducer,
   Act.rendezvous, Act.vpnStart, Act.vpnWait]

/-- A system state: the remaining program of each thread and the trace
of executed actions. -/
structure Sys where
  createRest : List Act
  serveRest : List Act
  trace : List Act
  deriving DecidableEq, Repr

/-- Thread identifiers for the scheduler. -/
inductive Tid where
  | createT
  | serveT
  deriving DecidableEq, Repr

/-- The initial state: both threads at the start, empty trace. -/
def sys0 : Sys := ⟨createProg, serveProg, []⟩

/-- One small step of the chosen thread; `none` when that thread cannot
make progress (it has terminated, or it is suspended at the rendezvous
while the other thread is not at its matching rendezvous action). -/
def stepSys (sys : Sys) (t : Tid) : Option Sys :=
  match t with
  | Tid.createT =>
      match sys.createRest with
      | [] => none
      | a :: rest =>
          if a = Act.rendezvous then
            match sys.serveRest with
            | Act.rendezvous :: srest =>
                some ⟨rest, srest, sys.trace ++ [Act.rendezvous]⟩
            | _ => none
          else some ⟨rest, sys.serveRest, sys.trace ++ [a]⟩
  | Tid.serveT =>
      match sys.serveRest with
      | [] => none
      | a :: rest =>
          if a = Act.rendezvous then
            match sys.createRest with
            | Act.rendezvous :: crest =>
                some ⟨crest, rest, sys.trace ++ [Act.rendezvous]⟩
            | _ => none
          else some ⟨sys.createRest, rest, sys.trace ++ [a]⟩

/-- Run a schedule: attempt each choice in order, skipping choices of a
thread that cannot step. -/
def runSched : List Tid → Sys → Sys
  | [], sys => sys
  | t :: ts, sys =>
      match stepSys sys t with
      | none => runSched ts sys
      | some s2 => runSched ts s2

/-- The part of a trace that precedes the first `vpnStart` action (the
whole trace when `vpnStart` never occurs). -/
def beforeVpnStart : List Act → List Act
  | [] => []
  | a :: rest => if a = Act.vpnStart then [] else a :: beforeVpnStart rest

/-- The suffixes of the `Serve` program: the possible values of
`serveRest` in a reachable state. -/
def serveTails : List (List Act) :=
  [[Act.natAddRule, Act.natStart, Act.primitives, Act.bindProducer,
    Act.rendezvous, Act.vpnStart, Act.vpnWait],
   [Act.natStart, Act.primitives, Act.bindProducer,
    Act.rendezvous, Act.vpnStart, Act.vpnWait],
   [Act.primitives, Act.bindProducer, Act.rendezvous, Act.vpnStart, Act.vpnWait],
   [Act.bindProducer, Act.rendezvous, Act.vpnStart, Act.vpnWait],
   [Act.rendezvous, Act.vpnStart, Act.vpnWait],
   [Act.vpnStart, Act.vpnWait],
   [Act.vpnWait],
   []]

/-- Invariant of reachable states: the serve thread is at a suffix of
its program; once the serve thread has passed the rendezvous, the
rendezvous is in the trace; any `vpnStart` in the trace is preceded by
the rendezvous; and the create thread never executes `vpnStart`. -/
structure Inv (sys : Sys) : Prop where
  serveTail : sys.serveRest ∈ serveTails
  rendDone : Act.rendezvous ∉ sys.serveRest → Act.rendezvous ∈ sys.trace
  startAfterRend : Act.vpnStart ∈ sys.trace →
    Act.rendezvous ∈ beforeVpnStart sys.trace
  noStartInCreate : Act.vpnStart ∉ sys.createRest

/-- A schedule that completes the serve preamble, lets the create
thread run up to the rendezvous, performs the rendezvous, then starts
the VPN server before the create thread has added the session to the
store. -/
def cexSched : List Tid :=
  [Tid.serveT, Tid.serveT, Tid.serveT, Tid.serveT,
   Tid.createT, Tid.createT, Tid.createT, Tid.createT,
   Tid.serveT, Tid.createT, Tid.serveT]

/-- The state after the create thread alone has run to the rendezvous:
it is suspended at the channel send while the serve thread has not yet
reached the receive in `WaitForHole`. -/
def blockedSys : Sys := runSched [Tid.createT, Tid.createT, Tid.createT] sys0

end Interleave

/-!
## Theorems

The claims are settled below, in claim order, each by a single theorem
(with a witness theorem when the main theorem carries hypotheses, and a
counterexample theorem where the claim fails on the code).
-/

namespace SessionMgr

/-- Claim C4: for every call of the provider session manager's `Create`
with a `proposalId` different from the current proposal's id, `Create`
returns `InvalidProposal`, no session is added to the store, the
promise processor is not started, and the NAT pinger is not
notified. -/
theorem create_invalid_proposal_rejected (m : Manager)
    (cid pid cfg : Nat) (cb : Option Bool) (rc : Nat)
    (h : m.currentProposalID ≠ pid) :
    (create m cid pid cfg cb rc).1 = Except.error SErr.invalidProposal ∧
    (create m cid pid cfg cb rc).2.1.store = m.store ∧
    SEff.promiseStart ∉ (create m cid pid cfg cb rc).2.2 ∧
    ∀ c, SEff.natNotify c ∉ (create m cid pid cfg cb rc).2.2 := by
  simp [create, h]

/-- Witness for C4 at a concrete manager: `mgrA` serves proposal 42 and
a `Create` for proposal 99 is rejected without side effects. -/
theorem create_invalid_proposal_rejected_w :
    mgrA.currentProposalID ≠ 99 ∧
    ((create mgrA 1 99 0 none 5).1 = Except.error SErr.invalidProposal ∧
     (create mgrA 1 99 0 none 5).2.1.store = mgrA.store ∧
     SEff.promiseStart ∉ (create mgrA 1 99 0 none 5).2.2 ∧
     ∀ c, SEff.natNotify c ∉ (create mgrA 1 99 0 none 5).2.2) :=
  ⟨by decide, create_invalid_proposal_rejected mgrA 1 99 0 none 5 (by decide)⟩

/-- Counterexample to claim C5: `Create` performs no uniqueness check
against the store — with an injected generator that repeats an id, a
second `Create` succeeds and returns an id that the store already
contains, so two distinct `Create` calls return the same session id. -/
theorem create_id_reuse_cex :
    (create mgrConst 1 42 0 none 0).1 =
      Except.ok { id := 7, consumerID := 1, config := 0,
                  destroyCb := none, last := false } ∧
    findSession mgrConst1.store 7 ≠ none ∧
    (create mgrConst1 2 42 0 none 0).1 =
      Except.ok { id := 7, consumerID := 2, config := 0,
                  destroyCb := none, last := false } :=
  ⟨rfl, by decide, rfl⟩

/-- Helper for the amended C5: a successful `Create` returns exactly
the id produced by the injected generator at the current call counter,
bumps the counter by one, and leaves the generator unchanged. -/
theorem create_ok_facts (m : Manager) (cid pid cfg : Nat) (cb : Option Bool)
    (rc : Nat) (s : GoSession)
    (h : (create m cid pid cfg cb rc).1 = Except.ok s) :
    m.generateID m.genCalls = some s.id ∧
    (create m cid pid cfg cb rc).2.1.genCalls = m.genCalls + 1 ∧
    (create m cid pid cfg cb rc).2.1.generateID = m.generateID := by
  by_cases hp : m.currentProposalID ≠ pid
  · simp [create, hp] at h
  · cases hg : m.generateID m.genCalls with
    | none => simp [create, hp, createSession, hg] at h
    | some i =>
        by_cases hps : m.promiseStartOk
        · simp [create, hp, createSession, hg, hps] at h
          subst h
          simp [create, hp, createSession, hg, hps]
        · simp [create, hp, createSession, hg, hps] at h

/-- Claim C5, amended: session ids returned by `Create` come directly
from the injected id generator, with no check against the store; when
the generator never returns the same id at two different call indices,
two consecutive successful `Create` calls return distinct ids. -/
theorem create_ids_distinct_of_injective_generator
    (m : Manager) (cid1 pid1 cfg1 cid2 pid2 cfg2 : Nat)
    (cb1 cb2 : Option Bool) (rc1 rc2 : Nat) (s1 s2 : GoSession)
    (hinj : ∀ i j v, m.generateID i = some v → m.generateID j = some v → i = j)
    (h1 : (create m cid1 pid1 cfg1 cb1 rc1).1 = Except.ok s1)
    (h2 : (create (create m cid1 pid1 cfg1 cb1 rc1).2.1
            cid2 pid2 cfg2 cb2 rc2).1 = Except.ok s2) :
    s1.id ≠ s2.id := by
  obtain ⟨hg1, hc1, hgen1⟩ := create_ok_facts m cid1 pid1 cfg1 cb1 rc1 s1 h1
  obtain ⟨hg2, _, _⟩ :=
    create_ok_facts (create m cid1 pid1 cfg1 cb1 rc1).2.1
      cid2 pid2 cfg2 cb2 rc2 s2 h2
  rw [hc1, hgen1] at hg2
  intro hid
  rw [hid] at hg1
  have := hinj m.genCalls (m.genCalls + 1) s2.id hg1 hg2
  omega

/-- Witness for the amended C5: with the injective generator of `mgrA`,
two consecutive `Create` calls return sessions with ids 100 and 101. -/
theorem create_ids_distinct_of_injective_generator_w :
    (create mgrA 1 42 0 none 0).1 =
      Except.ok { id := 100, consumerID := 1, config := 0,
                  destroyCb := none, last := false } ∧
    (create (create mgrA 1 42 0 none 0).2.1 2 42 0 none 0).1 =
      Except.ok { id := 101, consumerID := 2, config := 0,
                  destroyCb := none, last := false } ∧
    ({ id := 100, consumerID := 1, config := 0,
       destroyCb := none, last := false } : GoSession).id ≠
      ({ id := 101, consumerID := 2, config := 0,
         destroyCb := none, last := false } : GoSession).id :=
  ⟨rfl, rfl,
   create_ids_distinct_of_injective_generator mgrA 1 42 0 2 42 0 none none 0 0
     _ _
     (by intro i j v hi hj
         simp only [mgrA, Option.some_inj] at hi hj
         omega)
     rfl rfl⟩

/-- Claim C6: `Destroy` returns `SessionNotFound` when the id is absent;
otherwise `WrongOwner` when the caller is not the session's consumer;
otherwise (when the promise processor stops without error) it signals
the service-shutdown channel exactly when the session is marked last,
then stops the promise processor, then removes the session from the
store, then invokes the destroy callback — in that order. -/
theorem destroy_order (m : Manager) (cid sid : Nat)
    (hstop : m.promiseStopOk = true) :
    (findSession m.store sid = none →
        destroy m cid sid = (some SErr.sessionNotExists, m, [])) ∧
    (∀ s, findSession m.store sid = some s → s.consumerID ≠ cid →
        destroy m cid sid = (some SErr.wrongSessionOwner, m, [])) ∧
    (∀ s, findSession m.store sid = some s → s.consumerID = cid →
        (destroy m cid sid).2.2 =
          (if s.last then [SEff.shutdownSignal] else []) ++
            [SEff.promiseStop, SEff.storeRemove sid] ++
            (match s.destroyCb with
             | none => []
             | some _ => [SEff.destroyCbCall sid]) ∧
        (destroy m cid sid).2.1.store = removeSession m.store sid) := by
  refine ⟨fun h => by simp [destroy, h],
          fun s hs hc => by simp [destroy, hs, hc],
          fun s hs hc => ?_⟩
  cases hcb : s.destroyCb <;> cases hl : s.last <;>
    simp [destroy, hs, hc, hstop, hcb, hl]

/-- Witness for C6 at a concrete manager: destroying `sessB` (marked
last, owned by consumer 1) on `mgrB` produces the shutdown signal,
promise stop, store removal and destroy callback in order. -/
theorem destroy_order_w :
    mgrB.promiseStopOk = true ∧
    findSession mgrB.store 7 = some sessB ∧
    ((destroy mgrB 1 7).2.2 =
      (if sessB.last then [SEff.shutdownSignal] else []) ++
        [SEff.promiseStop, SEff.storeRemove 7] ++
        (match sessB.destroyCb with
         | none => []
         | some _ => [SEff.destroyCbCall 7]) ∧
     (destroy mgrB 1 7).2.1.store = removeSession mgrB.store 7) :=
  ⟨rfl, by decide, (destroy_order mgrB 1 7 rfl).2.2 sessB (by decide) (by decide)⟩

end SessionMgr

namespace ConnMgr

/-- Helper for C1: whatever step fails, the `cancel` slice built by
`startConnection` is a prefix (in registration order) of the canonical
list: close dialog, request session destroy, stop payments, publish
session-ended, stop connection. -/
theorem startConnection_undos_canonical (env : Env) :
    ∃ k, (startConnection env).undos = canonicalUndos.take k := by
  cases hcon : env.providerContacts.head? with
  | none => exact ⟨0, by simp [startConnection, hcon]⟩
  | some c =>
    by_cases h1 : env.dialogOk
    case neg => exact ⟨0, by simp [startConnection, hcon, h1]⟩
    by_cases h2 : env.serviceTypeSupported
    case neg =>
      exact ⟨1, by simp [startConnection, hcon, h1, h2, canonicalUndos]⟩
    by_cases h3 : env.getConfigOk
    case neg =>
      exact ⟨1, by simp [startConnection, hcon, h1, h2, h3, canonicalUndos]⟩
    by_cases h4 : env.sessionCreateOk
    case neg =>
      exact ⟨1, by simp [startConnection, hcon, h1, h2, h3, h4, canonicalUndos]⟩
    by_cases h5 : env.paymentFactoryOk
    case neg =>
      exact ⟨2, by simp [startConnection, hcon, h1, h2, h3, h4, h5, canonicalUndos]⟩
    by_cases h6 : env.connectionStartOk
    case neg =>
      exact ⟨4, by
        simp [startConnection, hcon, h1, h2, h3, h4, h5, h6, canonicalUndos]⟩
    cases hw : waitForConnectedState env.sessionID env.waitEvents with
    | none =>
        exact ⟨5, by
          simp [startConnection, hcon, h1, h2, h3, h4, h5, h6, hw, canonicalUndos]⟩
    | some r =>
        obtain ⟨e, effs, us⟩ := r
        cases e with
        | none =>
            exact ⟨5, by
              simp [startConnection, hcon, h1, h2, h3, h4, h5, h6, hw, canonicalUndos]⟩
        | some e2 =>
            exact ⟨5, by
              simp [startConnection, hcon, h1, h2, h3, h4, h5, h6, hw, canonicalUndos]⟩

/-- Claim C1: whenever a step of `Connect` fails, the compensations
registered by the previously completed steps — a prefix of close
dialog, request session destroy, stop payments, publish session-ended,
stop connection — are executed in reverse registration order (after
cancelling the connect context), and the manager's status after
`Connect` returns is `NotConnected`. -/
theorem connect_compensation (env : Env) (e : GoErr)
    (h : (connect ⟨MStatus.notConnected, []⟩ env).out = Outcome.err e) :
    (connect ⟨MStatus.notConnected, []⟩ env).mgr.status = MStatus.notConnected ∧
    (∃ k, (startConnection env).undos = canonicalUndos.take k) ∧
    (connect ⟨MStatus.notConnected, []⟩ env).effs =
      (startConnection env).effs ++ [Eff.cancelCtx] ++
        ((startConnection env).undos.reverse.map runUndo) := by
  cases ho : (startConnection env).out with
  | ok => simp [connect, ho] at h
  | panicked => simp [connect, ho] at h
  | blocked => simp [connect, ho] at h
  | err e2 =>
      refine ⟨?_, startConnection_undos_canonical env, ?_⟩ <;>
        simp [connect, ho]

/-- Witness for C1: with the session-create step failing, `Connect`
returns that error, the status is `NotConnected`, and the trace ends
with the context cancellation followed by the registered compensations
in reverse order. -/
theorem connect_compensation_w :
    (connect ⟨MStatus.notConnected, []⟩ envFail).out =
      Outcome.err GoErr.sessionCreateFailure ∧
    (connect ⟨MStatus.notConnected, []⟩ envFail).mgr.status =
      MStatus.notConnected ∧
    (connect ⟨MStatus.notConnected, []⟩ envFail).effs =
      (startConnection envFail).effs ++ [Eff.cancelCtx] ++
        ((startConnection envFail).undos.reverse.map runUndo) :=
  ⟨by decide,
   (connect_compensation envFail GoErr.sessionCreateFailure (by decide)).1,
   (connect_compensation envFail GoErr.sessionCreateFailure (by decide)).2.2⟩

/-- Helper for C2: every terminating run of `waitForConnectedState`
ends in exactly one of three ways: `nil` error after receiving
`Connected` (with the status updates ending at `Connected sessionID`),
`ErrConnectionFailed` after the channel closed, or `context.Canceled`
after the connect context was cancelled. -/
theorem wait_cases (sid : Nat) (evs : List ChanEvent) :
    waitForConnectedState sid evs = none ∨
    (∃ effs us, waitForConnectedState sid evs = some (none, effs, us) ∧
       ChanEvent.recv TunState.connected ∈ evs ∧
       ∀ st, applyUpdates st us = MStatus.connected sid) ∨
    (∃ effs us,
       waitForConnectedState sid evs = some (some GoErr.connectionFailed, effs, us) ∧
       ChanEvent.closed ∈ evs) ∨
    (∃ effs us,
       waitForConnectedState sid evs = some (some GoErr.ctxCanceled, effs, us) ∧
       ChanEvent.ctxDone ∈ evs) := by
  induction evs with
  | nil => exact Or.inl rfl
  | cons ev rest ih =>
      cases ev with
      | closed => exact Or.inr (Or.inr (Or.inl ⟨[], [], rfl, by simp⟩))
      | ctxDone => exact Or.inr (Or.inr (Or.inr ⟨[], [], rfl, by simp⟩))
      | recv s =>
          cases s with
          | connected =>
              exact Or.inr (Or.inl ⟨_, _, rfl, by simp, fun st => rfl⟩)
          | reconnecting =>
              rcases ih with h | ⟨effs, us, h, hm, hu⟩ |
                ⟨effs, us, h, hm⟩ | ⟨effs, us, h, hm⟩
              · exact Or.inl (by simp [waitForConnectedState, h])
              · refine Or.inr (Or.inl
                  ⟨Eff.publishStateEvent TunState.reconnecting :: effs,
                   MStatus.reconnecting :: us,
                   by simp [waitForConnectedState, h], by simp [hm], ?_⟩)
                intro st
                simpa [applyUpdates] using hu MStatus.reconnecting
              · exact Or.inr (Or.inr (Or.inl
                  ⟨Eff.publishStateEvent TunState.reconnecting :: effs,
                   MStatus.reconnecting :: us,
                   by simp [waitForConnectedState, h], by simp [hm]⟩))
              · exact Or.inr (Or.inr (Or.inr
                  ⟨Eff.publishStateEvent TunState.reconnecting :: effs,
                   MStatus.reconnecting :: us,
                   by simp [waitForConnectedState, h], by simp [hm]⟩))
          | other n =>
              rcases ih with h | ⟨effs, us, h, hm, hu⟩ |
                ⟨effs, us, h, hm⟩ | ⟨effs, us, h, hm⟩
              · exact Or.inl (by simp [waitForConnectedState, h])
              · exact Or.inr (Or.inl
                  ⟨Eff.publishStateEvent (TunState.other n) :: effs, us,
                   by simp [waitForConnectedState, h], by simp [hm], hu⟩)
              · exact Or.inr (Or.inr (Or.inl
                  ⟨Eff.publishStateEvent (TunState.other n) :: effs, us,
                   by simp [waitForConnectedState, h], by simp [hm]⟩))
              · exact Or.inr (Or.inr (Or.inr
                  ⟨Eff.publishStateEvent (TunState.other n) :: effs, us,
                   by simp [waitForConnectedState, h], by simp [hm]⟩))

/-- Claim C2: when every step before the wait succeeds and
`waitForConnectedState` terminates, `Connect`'s outcome is exactly one
of: the tunnel reported `Connected` and the status is `Connected` with
a `nil` error; the channel closed and `Connect` returns
`ErrConnectionFailed`; the connect context was cancelled and `Connect`
returns `ErrConnectionCancelled`. -/
theorem connect_wait_trichotomy (env : Env)
    (h1 : env.providerContacts ≠ []) (h2 : env.dialogOk = true)
    (h3 : env.serviceTypeSupported = true) (h4 : env.getConfigOk = true)
    (h5 : env.sessionCreateOk = true) (h6 : env.paymentFactoryOk = true)
    (h7 : env.connectionStartOk = true)
    (hterm : waitForConnectedState env.sessionID env.waitEvents ≠ none) :
    ((connect ⟨MStatus.notConnected, []⟩ env).out = Outcome.ok ∧
       (connect ⟨MStatus.notConnected, []⟩ env).mgr.status =
         MStatus.connected env.sessionID ∧
       ChanEvent.recv TunState.connected ∈ env.waitEvents) ∨
    ((connect ⟨MStatus.notConnected, []⟩ env).out =
       Outcome.err GoErr.connectionFailed ∧
       ChanEvent.closed ∈ env.waitEvents) ∨
    ((connect ⟨MStatus.notConnected, []⟩ env).out =
       Outcome.err GoErr.connectionCancelled ∧
       ChanEvent.ctxDone ∈ env.waitEvents) := by
  obtain ⟨c, cs, hpc⟩ : ∃ c cs, env.providerContacts = c :: cs := by
    cases hpc : env.providerContacts with
    | nil => exact absurd hpc h1
    | cons c cs => exact ⟨c, cs, rfl⟩
  rcases wait_cases env.sessionID env.waitEvents with h | ⟨effs, us, h, hm, hu⟩ |
    ⟨effs, us, h, hm⟩ | ⟨effs, us, h, hm⟩
  · exact absurd h hterm
  · refine Or.inl ⟨?_, ?_, hm⟩ <;>
      simp [connect, startConnection, hpc, h2, h3, h4, h5, h6, h7, h]
    exact hu MStatus.connecting
  · exact Or.inr (Or.inl ⟨by
      simp [connect, startConnection, hpc, h2, h3, h4, h5, h6, h7, h], hm⟩)
  · exact Or.inr (Or.inr ⟨by
      simp [connect, startConnection, hpc, h2, h3, h4, h5, h6, h7, h], hm⟩)

/-- Witness for C2: in `envOk` the tunnel reports an intermediate state
and then `Connected`; the trichotomy holds there. -/
theorem connect_wait_trichotomy_w :
    envOk.providerContacts ≠ [] ∧
    waitForConnectedState envOk.sessionID envOk.waitEvents ≠ none ∧
    (((connect ⟨MStatus.notConnected, []⟩ envOk).out = Outcome.ok ∧
        (connect ⟨MStatus.notConnected, []⟩ envOk).mgr.status =
          MStatus.connected envOk.sessionID ∧
        ChanEvent.recv TunState.connected ∈ envOk.waitEvents) ∨
     ((connect ⟨MStatus.notConnected, []⟩ envOk).out =
        Outcome.err GoErr.connectionFailed ∧
        ChanEvent.closed ∈ envOk.waitEvents) ∨
     ((connect ⟨MStatus.notConnected, []⟩ envOk).out =
        Outcome.err GoErr.connectionCancelled ∧
        ChanEvent.ctxDone ∈ envOk.waitEvents)) :=
  ⟨by decide, by decide,
   connect_wait_trichotomy envOk (by decide) rfl rfl rfl rfl rfl rfl (by decide)⟩

/-- Claim C3: `Connect` while the status is not `NotConnected` returns
`ErrAlreadyExists` with no step started; `Disconnect` while the status
is `NotConnected` returns `ErrNoConnection`; and a second consecutive
`Disconnect` always returns `ErrNoConnection`. -/
theorem connect_disconnect_preconditions :
    (∀ (mgr : Mgr) (env : Env), mgr.status ≠ MStatus.notConnected →
        connect mgr env = ⟨Outcome.err GoErr.alreadyExists, mgr, []⟩) ∧
    (∀ mgr : Mgr, mgr.status = MStatus.notConnected →
        disconnect mgr = (some GoErr.noConnection, mgr, [])) ∧
    (∀ mgr : Mgr, (disconnect (disconnect mgr).2.1).1 =
        some GoErr.noConnection) := by
  refine ⟨fun mgr env h => by simp [connect, h],
          fun mgr h => by simp [disconnect, h],
          fun mgr => ?_⟩
  by_cases h : mgr.status = MStatus.notConnected <;> simp [disconnect, h]

/-- Witness for C3 at concrete manager states: a connecting manager
rejects `Connect`, a disconnected manager rejects `Disconnect`, and a
connected manager rejects the second of two consecutive `Disconnect`
calls. -/
theorem connect_disconnect_preconditions_w :
    (⟨MStatus.connecting, []⟩ : Mgr).status ≠ MStatus.notConnected ∧
    connect ⟨MStatus.connecting, []⟩ envOk =
      ⟨Outcome.err GoErr.alreadyExists, ⟨MStatus.connecting, []⟩, []⟩ ∧
    disconnect ⟨MStatus.notConnected, []⟩ =
      (some GoErr.noConnection, ⟨MStatus.notConnected, []⟩, []) ∧
    (disconnect (disconnect ⟨MStatus.connected 9, [Undo.closeDialog]⟩).2.1).1 =
      some GoErr.noConnection :=
  ⟨by decide,
   connect_disconnect_preconditions.1 _ envOk (by decide),
   connect_disconnect_preconditions.2.1 _ rfl,
   connect_disconnect_preconditions.2.2 _⟩

/-- Claim C10 (code bug): on a proposal whose `ProviderContacts` slice
is empty, `Connect` evaluates `proposal.ProviderContacts[0]` and
panics with an index-out-of-range instead of returning an error. -/
theorem connect_empty_contacts_panics :
    (connect ⟨MStatus.notConnected, []⟩ envNoContacts).out = Outcome.panicked := by
  decide

end ConnMgr

namespace ServiceMgr

/-- Counterexample to claim C8: when `ServeDialogs` fails, `Start`
returns the error, but the dialog waiter started in steps 2–3 is not
stopped and the handler binding of step 4 is not released — no
rollback happens. -/
theorem managerStart_no_rollback_cex :
    (managerStart ⟨true, true, true, false, true⟩).1 =
      some FErr.serveDialogsFailure ∧
    FEff.dialogWaiterStop ∉ (managerStart ⟨true, true, true, false, true⟩).2 ∧
    FEff.handlerRelease ∉ (managerStart ⟨true, true, true, false, true⟩).2 := by
  decide

/-- Claim C8, amended: when `Start` fails at the `serveDialogs` step,
it returns the error immediately with no rollback of the earlier
steps: the dialog waiter remains started, the handler binding is not
released, and the later steps (discovery, pool insertion) do not
run. -/
theorem managerStart_serveDialogs_failure (env : FEnv)
    (hr : env.registryOk = true) (hwf : env.waiterFactoryOk = true)
    (hws : env.waiterStartOk = true) (hsd : env.serveDialogsOk = false) :
    (managerStart env).1 = some FErr.serveDialogsFailure ∧
    (managerStart env).2 =
      [FEff.registryCreate, FEff.newDialogWaiter, FEff.dialogWaiterStart,
       FEff.setProviderContact, FEff.newDialogHandler, FEff.serveDialogsBind] ∧
    FEff.dialogWaiterStop ∉ (managerStart env).2 ∧
    FEff.handlerRelease ∉ (managerStart env).2 ∧
    FEff.discoveryStart ∉ (managerStart env).2 ∧
    FEff.poolAdd ∉ (managerStart env).2 := by
  simp [managerStart, hr, hwf, hws, hsd]

/-- Witness for the amended C8 at the concrete failing environment. -/
theorem managerStart_serveDialogs_failure_w :
    (⟨true, true, true, false, true⟩ : FEnv).serveDialogsOk = false ∧
    ((managerStart ⟨true, true, true, false, true⟩).1 =
       some FErr.serveDialogsFailure ∧
     (managerStart ⟨true, true, true, false, true⟩).2 =
       [FEff.registryCreate, FEff.newDialogWaiter, FEff.dialogWaiterStart,
        FEff.setProviderContact, FEff.newDialogHandler, FEff.serveDialogsBind] ∧
     FEff.dialogWaiterStop ∉ (managerStart ⟨true, true, true, false, true⟩).2 ∧
     FEff.handlerRelease ∉ (managerStart ⟨true, true, true, false, true⟩).2 ∧
     FEff.discoveryStart ∉ (managerStart ⟨true, true, true, false, true⟩).2 ∧
     FEff.poolAdd ∉ (managerStart ⟨true, true, true, false, true⟩).2) :=
  ⟨rfl, managerStart_serveDialogs_failure ⟨true, true, true, false, true⟩
    rfl rfl rfl rfl⟩

end ServiceMgr

namespace Interleave

/-- Counterexample to claim C7: under the schedule `cexSched`, the VPN
server's `Start` executes with the session not yet in the store — the
trace places `vpnStart` strictly before `storeAdd`. -/
theorem vpnStart_before_storeAdd_cex :
    (runSched cexSched sys0).trace =
      [Act.natAddRule, Act.natStart, Act.primitives, Act.bindProducer,
       Act.checkProposal, Act.genId, Act.promiseStart, Act.rendezvous,
       Act.vpnStart, Act.storeAdd, Act.vpnWait] ∧
    Act.vpnStart ∈ (runSched cexSched sys0).trace.take 9 ∧
    Act.storeAdd ∉ (runSched cexSched sys0).trace.take 9 := by
  decide

/-- Appending to a trace that already contains `vpnStart` does not
change the part before the first `vpnStart`. -/
theorem beforeVpnStart_append_of_mem (l1 l2 : List Act)
    (h : Act.vpnStart ∈ l1) :
    beforeVpnStart (l1 ++ l2) = beforeVpnStart l1 := by
  induction l1 with
  | nil => simp at h
  | cons a rest ih =>
      by_cases ha : a = Act.vpnStart
      · simp [beforeVpnStart, ha]
      · have : Act.vpnStart ∈ rest := by
          rcases List.mem_cons.mp h with h1 | h1
          · exact absurd h1.symm ha
          · exact h1
        simp [beforeVpnStart, ha, ih this]

/-- Appending to a trace that does not contain `vpnStart` extends the
part before the first `vpnStart` past the whole old trace. -/
theorem beforeVpnStart_append_of_not_mem (l1 l2 : List Act)
    (h : Act.vpnStart ∉ l1) :
    beforeVpnStart (l1 ++ l2) = l1 ++ beforeVpnStart l2 := by
  induction l1 with
  | nil => simp
  | cons a rest ih =>
      have ha : a ≠ Act.vpnStart := fun hc => h (by simp [hc])
      have hrest : Act.vpnStart ∉ rest := fun hc => h (by simp [hc])
      simp [beforeVpnStart, ha, ih hrest]

/-- The invariant holds initially. -/
theorem inv_sys0 : Inv sys0 := by
  refine ⟨by decide, fun h => absurd (by decide : Act.rendezvous ∈ sys0.serveRest) h,
          fun h => absurd h (by decide), by decide⟩

/-- Tails of serve suffixes are serve suffixes. -/
theorem serveTails_tail_mem : ∀ l ∈ serveTails, l.tail ∈ serveTails := by
  decide

/-- A serve suffix headed by the rendezvous is exactly the suffix that
starts at the rendezvous. -/
theorem serveTails_rend_head :
    ∀ l ∈ serveTails, l.head? = some Act.rendezvous →
      l = [Act.rendezvous, Act.vpnStart, Act.vpnWait] := by
  decide

/-- A serve suffix headed by `vpnStart` lies past the rendezvous. -/
theorem serveTails_vpnStart_head :
    ∀ l ∈ serveTails, l.head? = some Act.vpnStart → Act.rendezvous ∉ l := by
  decide

/-- One step of either thread preserves the invariant. -/
theorem stepSys_inv (sys : Sys) (t : Tid) (s2 : Sys)
    (hstep : stepSys sys t = some s2) (hinv : Inv sys) : Inv s2 := by
  obtain ⟨hTail, hRend, hStart, hNoStart⟩ := hinv
  cases t with
  | createT =>
    cases hc : sys.createRest with
    | nil => simp [stepSys, hc] at hstep
    | cons a rest =>
      rw [hc] at hNoStart
      have hanv : a ≠ Act.vpnStart := fun h =>
        hNoStart (h ▸ List.mem_cons_self a rest)
      have hrestnv : Act.vpnStart ∉ rest := fun h =>
        hNoStart (List.mem_cons_of_mem a h)
      by_cases ha : a = Act.rendezvous
      · subst ha
        cases hs : sys.serveRest with
        | nil => simp [stepSys, hc, hs] at hstep
        | cons b srest =>
          by_cases hb : b = Act.rendezvous
          · subst hb
            simp only [stepSys, hc, hs, if_pos rfl] at hstep
            injection hstep with hstep
            subst hstep
            refine ⟨?_, fun _ => ?_, fun hv => ?_, hrestnv⟩
            · have := serveTails_tail_mem _ (hs ▸ hTail)
              simpa using this
            · simp
            · have hvold : Act.vpnStart ∈ sys.trace := by
                rcases List.mem_append.mp hv with h1 | h1
                · exact h1
                · simp at h1
              rw [beforeVpnStart_append_of_mem _ _ hvold]
              exact hStart hvold
          · exfalso
            cases b <;> first | exact hb rfl | simp [stepSys, hc, hs] at hstep
      · simp only [stepSys, hc, if_neg ha] at hstep
        injection hstep with hstep
        subst hstep
        refine ⟨hTail, fun hnr => ?_, fun hv => ?_, hrestnv⟩
        · exact List.mem_append_left _ (hRend hnr)
        · have hvold : Act.vpnStart ∈ sys.trace := by
            rcases List.mem_append.mp hv with h1 | h1
            · exact h1
            · rw [List.mem_singleton] at h1
              exact absurd h1.symm hanv
          rw [beforeVpnStart_append_of_mem _ _ hvold]
          exact hStart hvold
  | serveT =>
    cases hs : sys.serveRest with
    | nil => simp [stepSys, hs] at hstep
    | cons a rest =>
      have hrestTail : rest ∈ serveTails := by
        have := serveTails_tail_mem _ (hs ▸ hTail)
        simpa using this
      by_cases ha : a = Act.rendezvous
      · subst ha
        cases hc : sys.createRest with
        | nil => simp [stepSys, hs, hc] at hstep
        | cons b crest =>
          by_cases hb : b = Act.rendezvous
          · subst hb
            simp only [stepSys, hs, hc, if_pos rfl] at hstep
            injection hstep with hstep
            subst hstep
            refine ⟨hrestTail, fun _ => ?_, fun hv => ?_, ?_⟩
            · simp
            · have hvold : Act.vpnStart ∈ sys.trace := by
                rcases List.mem_append.mp hv with h1 | h1
                · exact h1
                · simp at h1
              rw [beforeVpnStart_append_of_mem _ _ hvold]
              exact hStart hvold
            · rw [hc] at hNoStart
              exact fun h => hNoStart (List.mem_cons_of_mem _ h)
          · exfalso
            cases b <;> first | exact hb rfl | simp [stepSys, hs, hc] at hstep
      · simp only [stepSys, hs, if_neg ha] at hstep
        injection hstep with hstep
        subst hstep
        by_cases hav : a = Act.vpnStart
        · subst hav
          have hnr : Act.rendezvous ∉ (Act.vpnStart :: rest) :=
            serveTails_vpnStart_head _ (hs ▸ hTail) rfl
          have hrtrace : Act.rendezvous ∈ sys.trace := by
            apply hRend
            rw [hs]
            exact hnr
          refine ⟨hrestTail, fun _ => ?_, fun _ => ?_, hNoStart⟩
          · exact List.mem_append_left _ hrtrace
          · by_cases hvold : Act.vpnStart ∈ sys.trace
            · rw [beforeVpnStart_append_of_mem _ _ hvold]
              exact hStart hvold
            · rw [beforeVpnStart_append_of_not_mem _ _ hvold]
              exact List.mem_append_left _ hrtrace
        · refine ⟨hrestTail, fun hnrrest => ?_, fun hv => ?_, hNoStart⟩
          · have hnrold : Act.rendezvous ∉ sys.serveRest := by
              rw [hs]
              intro hmem
              rcases List.mem_cons.mp hmem with h1 | h1
              · exact ha h1.symm
              · exact hnrrest h1
            exact List.mem_append_left _ (hRend hnrold)
          · have hvold : Act.vpnStart ∈ sys.trace := by
              rcases List.mem_append.mp hv with h1 | h1
              · exact h1
              · rw [List.mem_singleton] at h1
                exact absurd h1.symm hav
            rw [beforeVpnStart_append_of_mem _ _ hvold]
            exact hStart hvold

/-- The invariant is preserved by every schedule. -/
theorem runSched_inv (sched : List Tid) (sys : Sys) (hinv : Inv sys) :
    Inv (runSched sched sys) := by
  induction sched generalizing sys with
  | nil => exact hinv
  | cons t ts ih =>
      unfold runSched
      cases hstep : stepSys sys t with
      | none => exact ih sys hinv
      | some s2 => exact ih s2 (stepSys_inv sys t s2 hstep hinv)

/-- Claim C7, amended: under every schedule, the VPN server's `Start`
happens only after the `Create` call has handed `requestConfig` to the
NAT pinger (the rendezvous); the insertion of the session into the
store may happen after `Start`. -/
theorem vpnStart_after_rendezvous (sched : List Tid)
    (h : Act.vpnStart ∈ (runSched sched sys0).trace) :
    Act.rendezvous ∈ beforeVpnStart (runSched sched sys0).trace :=
  (runSched_inv sched sys0 inv_sys0).startAfterRend h

/-- Witness for the amended C7 at the concrete schedule `cexSched`. -/
theorem vpnStart_after_rendezvous_w :
    Act.vpnStart ∈ (runSched cexSched sys0).trace ∧
    Act.rendezvous ∈ beforeVpnStart (runSched cexSched sys0).trace :=
  ⟨by decide, vpnStart_after_rendezvous cexSched (by decide)⟩

/-- Claim C9 (code bug): the hand-off of `requestConfig` to the NAT
pinger is a blocking send — in the reachable state where `Create` has
arrived at `notifyNATPinger` while the `Serve` loop has not yet reached
the receive inside `WaitForHole`, the `Create` thread cannot make
progress, contradicting the code's own comment that the notification
does not block. -/
theorem natSend_blocks :
    blockedSys.createRest = [Act.rendezvous, Act.storeAdd] ∧
    blockedSys.serveRest = serveProg ∧
    stepSys blockedSys Tid.createT = none := by
  decide

end Interleave
